import Mathlib

/-!
Shallow embedding of the resource-lifecycle engine of CloudConductor,
centred on `System/Platform/Google/Instance.py` (class `Instance`).

The `Process` command executor and the `Processor` base class (lock flag,
`default_num_cmd_retries`, start/stop timestamps, the four statuses) are not
part of the provided sources; where their behaviour matters it is modelled
from the specification (sections 3, 4.1, 4.2) and marked as such.

External effects (running a shell command, polling the cloud provider,
the lock flag set by another thread) are modelled as explicit oracle
arguments: a function from observation index to the observed value.
-/

set_option autoImplicit false
set_option maxRecDepth 8000

namespace CloudConductor

/-- The four processor statuses of the Compute Resource state machine
(`Processor.OFF` / `CREATING` / `AVAILABLE` / `DESTROYING`).
Modelled from the spec: the `Processor` base class is not under the provided
sources; the spec lists status as one of Off, Creating, Available, Destroying. -/
inductive Status where
  | off
  | creating
  | available
  | destroying
  deriving DecidableEq, Repr

/-- Modelled from the spec: the `Process` command executor class is not under
the provided sources.  Per spec section 3 / 4.1 it carries the command string,
captured output, a completion flag, a failure flag and the remaining retry
budget (`num_retries`).  The fields mirror the accessors used by
`Instance.py`: `get_command`, `is_complete`, `get_output`, `has_failed`,
`get_num_retries`. -/
structure Process where
  command : String
  complete : Bool
  failed : Bool
  out : String
  err : String
  num_retries : Nat
  deriving DecidableEq, Repr

/-- Result of `Process.communicate()` for a not-yet-complete executor:
the captured stdout/stderr and whether the command exited with failure
(`has_failed` afterwards).  This is the oracle for one command execution. -/
structure RunResult where
  out : String
  err : String
  failed : Bool
  deriving DecidableEq, Repr

/-- What `Instance.handle_failure` did: whether it raised (`raise_error`
always raises a `RuntimeError`), which replacement executor it stored into
`self.processes[proc_name]` (the create/destroy retry branch), and whether it
entered the `self.run(...)` retry branch for a generic run command. -/
structure HandleFailureResult where
  raised : Bool
  scheduledRetry : Option Process
  ranRetryRun : Bool
  deriving DecidableEq, Repr

/-- Embedding of `Instance.handle_failure` (Instance.py lines 159-206),
called with the lock flag, the operation name, the failed executor and the
status that `self.get_status()` reconciles at that moment.

Control flow of the source, line by line:
* if locked and the operation is not destroy: `raise_error` (always raises);
* `curr_status = self.get_status()`;
* status OFF: destroy returns immediately; create is retryable when the
  budget is positive;
* status CREATING / DESTROYING: only destroy is retryable (budget positive);
* status AVAILABLE: any non-create operation is retryable (budget positive);
* if retryable and the operation is create/destroy: store a fresh `Process`
  with the same command and `num_retries - 1` into the process map;
* else if retryable: re-submit through `self.run` with `num_retries - 1`;
* finally `self.raise_error(proc_name, proc_obj)` is executed
  unconditionally (it is not guarded by any `if`), so every path that
  reaches the end of the function raises. -/
def handle_failure (locked : Bool) (proc_name : String) (proc : Process)
    (curr_status : Status) : HandleFailureResult :=
  if locked && proc_name != "destroy" then
    { raised := true, scheduledRetry := none, ranRetryRun := false }
  else if curr_status == Status.off && proc_name == "destroy" then
    { raised := false, scheduledRetry := none, ranRetryRun := false }
  else
    let can_retry : Bool :=
      match curr_status with
      | .off => proc_name == "create" && proc.num_retries > 0
      | .creating => proc_name == "destroy" && proc.num_retries > 0
      | .available => proc.num_retries > 0 && proc_name != "create"
      | .destroying => proc_name == "destroy" && proc.num_retries > 0
    if can_retry && (proc_name == "create" || proc_name == "destroy") then
      { raised := true,
        scheduledRetry := some { command := proc.command, complete := false,
                                 failed := false, out := "", err := "",
                                 num_retries := proc.num_retries - 1 },
        ranRetryRun := false }
    else if can_retry then
      { raised := true, scheduledRetry := none, ranRetryRun := true }
    else
      { raised := true, scheduledRetry := none, ranRetryRun := false }

/-- Outcome of `Instance.wait_process`: either it returned the pair
`(out, err)` or it raised a `RuntimeError` (through
`handle_failure` / `raise_error`). -/
inductive WaitOutcome where
  | output (out err : String)
  | fatal
  deriving DecidableEq, Repr

/-- Everything observable about one call of `Instance.wait_process`:
its outcome, the final state of the waited-on executor, how many times a
command was actually executed (`communicate` called), whether the
start/stop timestamps were set, and the replacement executor stored by a
retry branch of `handle_failure`, if any. -/
structure WaitProcessResult where
  outcome : WaitOutcome
  proc : Process
  commandsRun : Nat
  startTimeSet : Bool
  stopTimeSet : Bool
  scheduledRetry : Option Process
  deriving DecidableEq, Repr

/-- Embedding of `Instance.wait_process` (Instance.py lines 120-157) for one
call on `self.processes[proc_name] = proc`.

* If the executor `is_complete()` it returns the cached `get_output()`
  immediately: nothing runs, no state changes.
* Otherwise `communicate()` runs the command (oracle `runResult`), the
  executor is marked complete and its output stored.
* If it `has_failed()`, `handle_failure` decides (oracle `statusAfterFailure`
  is what `get_status()` reconciles there, `locked` the lock flag).  When
  `handle_failure` raises, the exception propagates.  When it returns (only
  the destroy-while-OFF path), the source does
  `return self.wait_process(proc_name)`: the stored executor is now complete,
  so the recursive call returns the cached output at once — in particular the
  code below the failure branch (`set_start_time` / `set_stop_time`) is never
  reached on this path.
* On success, `set_start_time()` for create, `set_stop_time()` for
  destroy, and the output is returned. -/
def wait_process (locked : Bool) (proc_name : String) (proc : Process)
    (runResult : RunResult) (statusAfterFailure : Status) : WaitProcessResult :=
  if proc.complete then
    { outcome := .output proc.out proc.err, proc := proc, commandsRun := 0,
      startTimeSet := false, stopTimeSet := false, scheduledRetry := none }
  else
    let proc' : Process :=
      { proc with complete := true, failed := runResult.failed,
                  out := runResult.out, err := runResult.err }
    if proc'.failed then
      let hf := handle_failure locked proc_name proc' statusAfterFailure
      if hf.raised then
        { outcome := .fatal, proc := proc', commandsRun := 1,
          startTimeSet := false, stopTimeSet := false,
          scheduledRetry := hf.scheduledRetry }
      else
        { outcome := .output proc'.out proc'.err, proc := proc',
          commandsRun := 1, startTimeSet := false, stopTimeSet := false,
          scheduledRetry := hf.scheduledRetry }
    else
      { outcome := .output proc'.out proc'.err, proc := proc',
        commandsRun := 1, startTimeSet := proc_name == "create",
        stopTimeSet := proc_name == "destroy", scheduledRetry := none }

/-- The polling loop of `Instance.wait_until_ready` (Instance.py lines
211-216):

    cycle_count = 1
    while cycle_count < 60 and not self.startup_script_complete
                           and not self.is_locked():
        time.sleep(10)
        cycle_count += 1
        self.startup_script_complete = self.poll_startup_script()

`locked i` is the value `is_locked()` observes at the i-th evaluation of the
loop condition (i = 0, 1, ...) and `poll i` the result of
`poll_startup_script()` inside the i-th executed iteration.  The function is
called with the current check index `i`, the current `cycle_count` and the
current `startup_script_complete` flag; it returns the number of iterations
executed from here on together with the final flag.  One iteration is one
ten-second sleep followed by one metadata poll. -/
def wur_loop (locked poll : Nat → Bool) (i cycle : Nat) (complete : Bool) :
    Nat × Bool :=
  if h : cycle < 60 && !complete && !(locked i) then
    let r := wur_loop locked poll (i + 1) (cycle + 1) (poll i)
    (r.1 + 1, r.2)
  else
    (0, complete)
termination_by 60 - cycle
decreasing_by
  simp only [Bool.and_eq_true, decide_eq_true_eq] at h
  omega

/-- How one call of `Instance.wait_until_ready` ends (Instance.py lines
208-241): the post-loop code raises a locked error if `is_locked()`, else —
when the ready marker was never observed — either resets the instance
(`creation_resets += 1; self.destroy(); self.create()`) when
`creation_resets < self.default_num_cmd_retries`, or raises the fatal
never-became-available error; otherwise the wait succeeded. -/
inductive WurOutcome where
  | success
  | lockedError
  | reset
  | timeoutError
  deriving DecidableEq, Repr

/-- Embedding of `Instance.wait_until_ready` (Instance.py lines 208-241),
one invocation (the `reset` outcome stands for the recursive
`self.destroy(); self.create()` call, unfolded in `create_full`).
`sc0` is `startup_script_complete` on entry (`create` sets it to `False`
right before calling); returns the outcome and the number of poll cycles
executed.  The post-loop `is_locked()` check observes `locked` at the index
of the final (failed) condition check. -/
def wait_until_ready (locked poll : Nat → Bool) (sc0 : Bool)
    (creation_resets default_num_cmd_retries : Nat) : WurOutcome × Nat :=
  let r := wur_loop locked poll 0 1 sc0
  let iters := r.1
  let complete := r.2
  if locked iters then (.lockedError, iters)
  else if !complete then
    if creation_resets < default_num_cmd_retries then (.reset, iters)
    else (.timeoutError, iters)
  else (.success, iters)

/-- Result of `GoogleCloudHelper.get_optimal_instance_type` together with
`GoogleCloudHelper.get_instance_price`, as consumed by `Instance.create`
(Instance.py lines 68-82): the resolved cpu/memory, the selected instance
type and the price.  Modelled from the spec: `GoogleCloudHelper` is an
external pricing collaborator returning
`(resolved_cpu, resolved_mem, instance_type, price_per_hour)`. -/
structure Pricing where
  nr_cpus : Nat
  mem : Nat
  instance_type : String
  price : Nat
  deriving DecidableEq, Repr

/-- Outcome of a full `Instance.create()` call including the bounded
auto-recovery recursion through `wait_until_ready`. -/
inductive CreateOutcome where
  | success
  | lockedError
  | timeoutFatal
  deriving DecidableEq, Repr

/-- Observable result of a full `Instance.create()` run: the outcome, how
many destroy-and-recreate auto-recovery cycles ran, how many times the
pricing collaborator was consulted, and the finally assigned
`instance_type`/`price` pair (`none` when `create` refused before resolving
anything). -/
structure CreateResult where
  outcome : CreateOutcome
  recreates : Nat
  resolveCalls : Nat
  final : Option Pricing
  deriving DecidableEq, Repr

/-- Embedding of `Instance.create` (Instance.py lines 59-99) together with
the auto-recovery recursion of `wait_until_ready` (lines 227-231).  The
attempt counter is `creation_resets` (field set to 0 in `__init__` and only
incremented in the reset branch).  Per attempt `a`:

* `create` first refuses with a fatal error if the instance `is_locked()`
  (`entryLocked a`), before any other work;
* otherwise it resolves `self.instance_type` and `self.price` from the
  pricing collaborator (`resolve a` — one collaborator consultation per
  `create()` invocation), launches the provisioning command, sets
  `startup_script_complete = False` and calls `wait_until_ready` with lock
  observations `lockedF a` and poll results `pollF a`;
* a `reset` outcome destroys the instance and calls `create()` again with
  `creation_resets` incremented (only reachable when
  `creation_resets < default_num_cmd_retries`).

The provisioning command itself is modelled as succeeding: its failure path
goes through `wait_process` / `handle_failure`, embedded separately above,
which on any genuine failure raises before `wait_until_ready` is reached. -/
def create_full (resolve : Nat → Pricing) (entryLocked : Nat → Bool)
    (lockedF pollF : Nat → Nat → Bool) (budget : Nat) (resets : Nat) :
    CreateResult :=
  if entryLocked resets then
    { outcome := .lockedError, recreates := 0, resolveCalls := 0,
      final := none }
  else
    let p := resolve resets
    match (wait_until_ready (lockedF resets) (pollF resets) false resets
            budget).1 with
    | .success =>
      { outcome := .success, recreates := 0, resolveCalls := 1,
        final := some p }
    | .lockedError =>
      { outcome := .lockedError, recreates := 0, resolveCalls := 1,
        final := some p }
    | .timeoutError =>
      { outcome := .timeoutFatal, recreates := 0, resolveCalls := 1,
        final := some p }
    | .reset =>
      if h : resets < budget then
        let r := create_full resolve entryLocked lockedF pollF budget
                  (resets + 1)
        { outcome := r.outcome, recreates := r.recreates + 1,
          resolveCalls := r.resolveCalls + 1,
          final := (r.final).orElse (fun _ => some p) }
      else
        { outcome := .timeoutFatal, recreates := 0, resolveCalls := 1,
          final := some p }
termination_by budget - resets
decreasing_by omega

/-- Embedding of `Instance.__poll_status` (Instance.py lines 277-298).
Inputs are the provider observations: whether
`GoogleCloudHelper.instance_exists` finds the instance, the raw status
string from `GoogleCloudHelper.get_instance_status`, the current
`startup_script_complete` flag and the result a lazy
`poll_startup_script()` call would return.  Output: the value the Python
function returns — `none` models Python falling off the end of the
function (an implicit `return None`, hit for any status string outside
TERMINATED / STOPPING / PROVISIONING / STAGING / RUNNING) — together with
the updated `startup_script_complete` flag. -/
def poll_status (instanceExists : Bool) (provStatus : String)
    (scComplete pollReady : Bool) : Option Status × Bool :=
  if !instanceExists then (some .off, false)
  else if provStatus == "TERMINATED" || provStatus == "STOPPING" then
    (some .destroying, false)
  else if provStatus == "PROVISIONING" || provStatus == "STAGING" then
    (some .creating, false)
  else if provStatus == "RUNNING" then
    if scComplete || pollReady then (some .available, true)
    else (some .creating, false)
  else (none, scComplete)

/-- Embedding of `Instance.__sync_status` (Instance.py lines 262-275).
`attempt i` is the i-th try of `self.__poll_status()`: `some v` when it
returns value `v` (itself an `Option Status`, see `poll_status`), `none`
when it raises.  The source initialises `retries = default_num_cmd_retries`
and loops: on an exception it re-raises when `retries == 0`, otherwise
decrements `retries`, sleeps five seconds and tries again.  Returns the
overall result (`some v` = returned `v`, `none` = exception surfaced) and
the number of poll attempts made. -/
def sync_status (attempt : Nat → Option (Option Status)) (retries i : Nat) :
    Option (Option Status) × Nat :=
  match attempt i with
  | some v => (some v, 1)
  | none =>
    match retries with
    | 0 => (none, 1)
    | r + 1 =>
      let res := sync_status attempt r (i + 1)
      (res.1, res.2 + 1)

/-- The `--boot-disk-size` argument built by
`Instance.__get_gcloud_create_cmd` (Instance.py lines 334-339):

    if self.disk_space >= 10240:
        args.append("%dTB" % int(math.ceil(self.disk_space / 1024.0)))
    else:
        args.append("%dGB" % int(self.disk_space))

For a natural number `d`, `math.ceil(d / 1024.0)` is `(d + 1023) / 1024`
in integer arithmetic (the float division is exact for every disk size
below 2^53). -/
def boot_disk_size_arg (disk_space : Nat) : String :=
  if disk_space ≥ 10240 then toString ((disk_space + 1023) / 1024) ++ "TB"
  else toString disk_space ++ "GB"

/-- Embedding of `Instance.__get_gcloud_create_cmd` (Instance.py lines
317-374) as the argument list the source accumulates in `args` before
`" ".join(args)`.  The `"custom" in self.instance_type` membership test is
the `customType` flag.  Local SSD flags are repeated `nr_local_ssd`
times. -/
def gcloud_create_cmd_args (name zone disk_image : String)
    (is_preemptible : Bool) (disk_space : Nat) (is_boot_disk_ssd : Bool)
    (nr_local_ssd : Nat) (service_acct : String) (customType : Bool)
    (nr_cpus mem : Nat) (instance_type : String) : List String :=
  ["gcloud compute instances create " ++ name, "--zone", zone]
    ++ (if is_preemptible then ["--preemptible"] else [])
    ++ ["--image", disk_image,
        "--boot-disk-size", boot_disk_size_arg disk_space,
        "--boot-disk-type",
        if is_boot_disk_ssd then "pd-ssd" else "pd-standard"]
    ++ List.replicate nr_local_ssd "--local-ssd interface=scsi"
    ++ ["--scopes", "cloud-platform", "--service-account", service_acct]
    ++ (if customType then
          ["--custom-cpu", toString nr_cpus,
           "--custom-memory", toString mem ++ "GB"]
        else ["--machine-type", instance_type])
    ++ ["--metadata-from-file",
        "startup-script=System/Platform/Google/GoogleStartupScript.sh"]

/-- Embedding of `Instance.create`'s entry guard (Instance.py lines 59-63):
`create` raises `RuntimeError` before doing anything else when the
processor `is_locked()`. -/
def create_entry_refused (locked : Bool) : Bool := locked

/-! ### Helper lemmas about the polling loop -/

/-- The polling loop runs at most `60 - cycle` iterations from
`cycle_count = cycle`. -/
theorem wur_loop_iters_le (locked poll : Nat → Bool) (i cycle : Nat)
    (complete : Bool) :
    (wur_loop locked poll i cycle complete).1 ≤ 60 - cycle := by
  induction i, cycle, complete using wur_loop.induct locked poll with
  | case1 i cycle complete h ih =>
      rw [wur_loop, dif_pos h]
      simp only [Bool.and_eq_true, decide_eq_true_eq] at h
      simp only []
      omega
  | case2 i cycle complete h =>
      rw [wur_loop, dif_neg h]
      simp

/-- With the ready flag already set, the loop condition fails at once:
no further sleep or poll happens. -/
theorem wur_loop_of_complete (locked poll : Nat → Bool) (i cycle : Nat) :
    wur_loop locked poll i cycle true = (0, true) := by
  rw [wur_loop, dif_neg]
  simp

/-- With the lock observed at the current condition check, the loop exits
at once: no further sleep or poll happens. -/
theorem wur_loop_of_locked (locked poll : Nat → Bool) (i cycle : Nat)
    (complete : Bool) (h : locked i = true) :
    wur_loop locked poll i cycle complete = (0, complete) := by
  rw [wur_loop, dif_neg]
  simp [h]

/-- If the lock flag is monotone (once set it stays set) and is set by
observation index `k`, the loop performs at most `k - i` further
iterations from check index `i`: it never runs past the check that
observes the lock. -/
theorem wur_loop_iters_le_of_locked_at (locked poll : Nat → Bool)
    (hmono : ∀ a b, a ≤ b → locked a = true → locked b = true)
    (k : Nat) (hk : locked k = true) (i cycle : Nat) (complete : Bool) :
    (wur_loop locked poll i cycle complete).1 ≤ k - i := by
  induction i, cycle, complete using wur_loop.induct locked poll with
  | case1 i cycle complete h ih =>
      rw [wur_loop, dif_pos h]
      simp only [Bool.and_eq_true, decide_eq_true_eq, Bool.not_eq_true'] at h
      have hi : i < k := by
        by_contra hle
        have hik : locked i = true := hmono k i (by omega) hk
        rw [h.2] at hik
        exact Bool.false_ne_true hik
      simp only []
      omega
  | case2 i cycle complete h =>
      rw [wur_loop, dif_neg h]
      simp

/-- If every metadata poll comes back negative, the ready flag stays
down throughout the loop. -/
theorem wur_loop_snd_false (locked poll : Nat → Bool)
    (hp : ∀ j, poll j = false) (i cycle : Nat) (complete : Bool) :
    complete = false → (wur_loop locked poll i cycle complete).2 = false := by
  induction i, cycle, complete using wur_loop.induct locked poll with
  | case1 i cycle complete h ih =>
      intro _
      rw [wur_loop, dif_pos h]
      exact ih (hp i)
  | case2 i cycle complete h =>
      intro hc
      rw [wur_loop, dif_neg h]
      exact hc

/-- The second component returned by `wait_until_ready` is always the
iteration count of its polling loop, whatever the outcome. -/
theorem wait_until_ready_snd (locked poll : Nat → Bool) (sc0 : Bool)
    (resets budget : Nat) :
    (wait_until_ready locked poll sc0 resets budget).2 =
      (wur_loop locked poll 0 1 sc0).1 := by
  simp only [wait_until_ready]
  split
  · rfl
  · split
    · split <;> rfl
    · rfl

/-! ### Helper lemmas about status-poll retrying -/

/-- `__sync_status` makes at most `retries + 1` poll attempts. -/
theorem sync_status_attempts_le (attempt : Nat → Option (Option Status)) :
    ∀ retries i, (sync_status attempt retries i).2 ≤ retries + 1 := by
  intro retries
  induction retries with
  | zero =>
      intro i
      rw [sync_status]
      cases attempt i <;> simp
  | succ r ih =>
      intro i
      rw [sync_status]
      cases h : attempt i with
      | some v => simp
      | none =>
          simp only []
          have := ih (i + 1)
          omega

/-- When `__sync_status` re-raises, it has made exactly `retries + 1`
attempts and every one of them raised. -/
theorem sync_status_raise_exhausts (attempt : Nat → Option (Option Status)) :
    ∀ retries i, (sync_status attempt retries i).1 = none →
      (sync_status attempt retries i).2 = retries + 1 ∧
      ∀ j, j ≤ retries → attempt (i + j) = none := by
  intro retries
  induction retries with
  | zero =>
      intro i h
      rw [sync_status] at h
      cases ha : attempt i with
      | some v => rw [ha] at h; simp at h
      | none =>
          rw [sync_status, ha]
          refine ⟨rfl, ?_⟩
          intro j hj
          interval_cases j
          simpa using ha
  | succ r ih =>
      intro i h
      rw [sync_status] at h
      cases ha : attempt i with
      | some v => rw [ha] at h; simp at h
      | none =>
          rw [ha] at h
          simp only [] at h
          have hrec := ih (i + 1) h
          rw [sync_status, ha]
          simp only []
          refine ⟨by omega, ?_⟩
          intro j hj
          cases j with
          | zero => simpa using ha
          | succ j' =>
              have e : i + (j' + 1) = (i + 1) + j' := by omega
              rw [e]
              exact hrec.2 j' (by omega)

/-- When every poll attempt raises, `__sync_status` surfaces the error. -/
theorem sync_status_all_fail (attempt : Nat → Option (Option Status))
    (h : ∀ j, attempt j = none) :
    ∀ retries i, (sync_status attempt retries i).1 = none := by
  intro retries
  induction retries with
  | zero => intro i; rw [sync_status]; simp [h i]
  | succ r ih =>
      intro i
      rw [sync_status]
      simp only [h i]
      exact ih (i + 1)

/-! ### Helper lemmas about create / recreate -/

/-- As long as no `create()` invocation is refused at its lock guard, the
pricing collaborator is consulted exactly once per `create()` invocation:
the total number of consultations is the number of auto-recovery recreates
plus one. -/
theorem create_full_resolve_per_invocation (resolve : Nat → Pricing)
    (entryLocked : Nat → Bool) (lockedF pollF : Nat → Nat → Bool)
    (budget : Nat) (hEntry : ∀ a, entryLocked a = false) :
    ∀ resets,
      (create_full resolve entryLocked lockedF pollF budget resets).resolveCalls =
        (create_full resolve entryLocked lockedF pollF budget resets).recreates + 1 := by
  intro resets
  induction resets using create_full.induct resolve entryLocked lockedF pollF budget with
  | case1 x hx => rw [hEntry x] at hx; exact absurd hx (by simp)
  | case2 x hx hw => rw [create_full, if_neg hx, hw]
  | case3 x hx hw => rw [create_full, if_neg hx, hw]
  | case4 x hx hw => rw [create_full, if_neg hx, hw]
  | case5 x hx hw hlt ih =>
      rw [create_full, if_neg hx, hw]
      simp only [dif_pos hlt]
      omega
  | case6 x hx hw hlt =>
      rw [create_full, if_neg hx, hw]
      simp only [dif_neg hlt]

/-- The replacement executor `handle_failure` stores for a create/destroy
retry reuses the failed executor's own command string (no re-resolution of
anything) and carries a budget decreased by one. -/
theorem handle_failure_retry_same_command (locked : Bool) (proc_name : String)
    (proc q : Process) (st : Status)
    (h : (handle_failure locked proc_name proc st).scheduledRetry = some q) :
    q.command = proc.command ∧ q.num_retries = proc.num_retries - 1 := by
  unfold handle_failure at h
  split at h
  · simp at h
  · split at h
    · simp at h
    · simp only [] at h
      split at h
      · simp only [Option.some.injEq] at h
        subst h
        exact ⟨rfl, rfl⟩
      · split at h <;> simp at h

/-! ### Claim theorems -/

/-- C1: the claim says a retry-eligible command failure (create, status Off,
budget 2) is retried and not surfaced, with 3 total provisioning attempts
before a fatal error.  The code disagrees with its own comments: at the end
of `handle_failure` the call `self.raise_error(proc_name, proc_obj)` is
unconditional (the comment above it reads "Raise error if no restarts
left"), so after scheduling the replacement executor with `num_retries = 1`
the function raises anyway.  Evaluating the embedding at the failing input:
a first create failure with a budget of 2 retries while status is Off ends
in a fatal `RuntimeError` after exactly one executed command; the scheduled
retry executor is orphaned, never run. -/
theorem C1_create_failure_raises_despite_retry_budget :
    wait_process false "create"
      { command := "gcloud compute instances create vm-a1b2", complete := false,
        failed := false, out := "", err := "", num_retries := 2 }
      { out := "", err := "provisioning failed", failed := true }
      Status.off =
    { outcome := .fatal,
      proc := { command := "gcloud compute instances create vm-a1b2",
                complete := true, failed := true, out := "",
                err := "provisioning failed", num_retries := 2 },
      commandsRun := 1, startTimeSet := false, stopTimeSet := false,
      scheduledRetry := some
        { command := "gcloud compute instances create vm-a1b2",
          complete := false, failed := false, out := "", err := "",
          num_retries := 1 } } := rfl

/-- C2 counterexample: with a pricing collaborator whose answer differs
between consultations (price = consultation index), a create whose first
attempt times out and auto-recovers consults the collaborator twice and
ends with the price of the second resolution (1), not the first (0): the
instance_type/price assignment is not once-per-life. -/
theorem C2_counterexample :
    (create_full (fun i => ⟨1, 4, "n1-standard-1", i⟩) (fun _ => false)
      (fun _ _ => false) (fun a _ => a == 1) 2 0).resolveCalls = 2 ∧
    (create_full (fun i => ⟨1, 4, "n1-standard-1", i⟩) (fun _ => false)
      (fun _ _ => false) (fun a _ => a == 1) 2 0).final =
      some ⟨1, 4, "n1-standard-1", 1⟩ ∧
    (Pricing.price ⟨1, 4, "n1-standard-1", 1⟩ : Nat) ≠
      Pricing.price ⟨1, 4, "n1-standard-1", 0⟩ := by
  refine ⟨?_, ?_, by decide⟩ <;> simp [create_full, wait_until_ready, wur_loop]

/-- C2 (amended): instance_type and price are resolved from the pricing
collaborator exactly once per `create()` invocation — the number of
consultations equals the number of auto-recovery recreates plus one — and
the command-level retry path never re-resolves them: the replacement
executor reuses the failed executor's command verbatim with the budget
decreased by one. -/
theorem C2_price_resolved_per_create_invocation :
    (∀ (resolve : Nat → Pricing) (entryLocked : Nat → Bool)
        (lockedF pollF : Nat → Nat → Bool) (budget resets : Nat),
      (∀ a, entryLocked a = false) →
      (create_full resolve entryLocked lockedF pollF budget resets).resolveCalls =
        (create_full resolve entryLocked lockedF pollF budget resets).recreates + 1) ∧
    (∀ (locked : Bool) (proc_name : String) (proc q : Process) (st : Status),
      (handle_failure locked proc_name proc st).scheduledRetry = some q →
      q.command = proc.command ∧ q.num_retries = proc.num_retries - 1) :=
  ⟨fun resolve entryLocked lockedF pollF budget resets hEntry =>
     create_full_resolve_per_invocation resolve entryLocked lockedF pollF budget
       hEntry resets,
   fun locked proc_name proc q st h =>
     handle_failure_retry_same_command locked proc_name proc q st h⟩

/-- C2 witness: the amended statement applied at a concrete run (budget 2,
first attempt times out, second succeeds): two consultations for one
recreate. -/
theorem C2_witness :
    (create_full (fun i => ⟨1, 4, "n1-standard-1", i⟩) (fun _ => false)
      (fun _ _ => false) (fun a _ => a == 1) 2 0).resolveCalls =
      (create_full (fun i => ⟨1, 4, "n1-standard-1", i⟩) (fun _ => false)
        (fun _ _ => false) (fun a _ => a == 1) 2 0).recreates + 1 :=
  C2_price_resolved_per_create_invocation.1 (fun i => ⟨1, 4, "n1-standard-1", i⟩)
    (fun _ => false) (fun _ _ => false) (fun a _ => a == 1) 2 0 (fun _ => rfl)

/-- C3: when `wait_until_ready` exhausts its polling budget without
observing the ready marker and the resource is never locked, the outcome is
a destroy-and-recreate reset exactly when `creation_resets` is strictly
below the default retry budget and a fatal timeout error otherwise; with a
bound of 1 the instance is destroyed and recreated exactly once and the
second timeout is fatal. -/
theorem C3_startup_timeout_recovery :
    (∀ (locked poll : Nat → Bool) (resets budget : Nat),
      (∀ i, locked i = false) → (∀ i, poll i = false) →
      (wait_until_ready locked poll false resets budget).1 =
        if resets < budget then WurOutcome.reset else WurOutcome.timeoutError) ∧
    create_full (fun _ => ⟨1, 4, "n1-standard-1", 5⟩) (fun _ => false)
      (fun _ _ => false) (fun _ _ => false) 1 0 =
    { outcome := .timeoutFatal, recreates := 1, resolveCalls := 2,
      final := some ⟨1, 4, "n1-standard-1", 5⟩ } := by
  constructor
  · intro locked poll resets budget hl hp
    have h2 := wur_loop_snd_false locked poll hp 0 1 false rfl
    simp only [wait_until_ready, hl, h2]
    by_cases hb : resets < budget <;> simp [hb]
  · simp [create_full, wait_until_ready, wur_loop]

/-- C3 witness: the general statement applied with never-locked, never-ready
oracles at `creation_resets = 0` and budget 1 gives a reset. -/
theorem C3_witness :
    (wait_until_ready (fun _ => false) (fun _ => false) false 0 1).1 =
      WurOutcome.reset := by
  have h := C3_startup_timeout_recovery.1 (fun _ => false) (fun _ => false) 0 1
    (fun _ => rfl) (fun _ => rfl)
  simpa using h

/-- C4 counterexample: for the provider status string "SUSPENDED" (instance
present) `__poll_status` falls off the end of the function and returns
None — not one of the four statuses Off / Creating / Available /
Destroying, contradicting the claim that every provider-reported state maps
to one of the four. -/
theorem C4_counterexample :
    (poll_status true "SUSPENDED" false false).1 = none ∧
    (poll_status true "SUSPENDED" false false).1 ≠ some Status.off ∧
    (poll_status true "SUSPENDED" false false).1 ≠ some Status.creating ∧
    (poll_status true "SUSPENDED" false false).1 ≠ some Status.available ∧
    (poll_status true "SUSPENDED" false false).1 ≠ some Status.destroying := by
  refine ⟨rfl, ?_, ?_, ?_, ?_⟩ <;> decide

/-- C4 (amended): the reconciliation maps an absent instance to Off,
TERMINATED/STOPPING to Destroying, PROVISIONING/STAGING to Creating, and
RUNNING to Available exactly when the ready marker is already known or the
lazy poll observes it (else Creating); any other provider status string of
an existing instance yields no status at all (Python implicitly returns
None). -/
theorem C4_status_mapping (ex : Bool) (st : String) (sc pr : Bool) :
    (ex = false → poll_status ex st sc pr = (some Status.off, false)) ∧
    (st = "TERMINATED" ∨ st = "STOPPING" → ex = true →
      poll_status ex st sc pr = (some Status.destroying, false)) ∧
    (st = "PROVISIONING" ∨ st = "STAGING" → ex = true →
      poll_status ex st sc pr = (some Status.creating, false)) ∧
    (st = "RUNNING" → ex = true →
      poll_status ex st sc pr =
        if sc || pr then (some Status.available, true)
        else (some Status.creating, false)) ∧
    (ex = true → st ≠ "TERMINATED" → st ≠ "STOPPING" → st ≠ "PROVISIONING" →
      st ≠ "STAGING" → st ≠ "RUNNING" → poll_status ex st sc pr = (none, sc)) := by
  refine ⟨?_, ?_, ?_, ?_, ?_⟩
  · intro h; subst h; simp [poll_status]
  · rintro (h | h) he <;> subst h <;> subst he <;> simp [poll_status]
  · rintro (h | h) he <;> subst h <;> subst he <;> simp [poll_status]
  · intro h he; subst h; subst he
    by_cases hs : (sc || pr) = true <;> simp [poll_status, hs]
  · intro he h1 h2 h3 h4 h5; subst he
    simp [poll_status, beq_iff_eq, h1, h2, h3, h4, h5]

/-- C4 witness: the mapping applied at concrete observations, one per
branch with a hypothesis. -/
theorem C4_witness :
    poll_status false "RUNNING" false false = (some Status.off, false) ∧
    poll_status true "TERMINATED" false false = (some Status.destroying, false) ∧
    poll_status true "RUNNING" false true = (some Status.available, true) ∧
    poll_status true "SUSPENDING" false false = (none, false) :=
  ⟨(C4_status_mapping false "RUNNING" false false).1 rfl,
   (C4_status_mapping true "TERMINATED" false false).2.1 (Or.inl rfl) rfl,
   by
     have h := (C4_status_mapping true "RUNNING" false true).2.2.2.1 rfl rfl
     simpa using h,
   (C4_status_mapping true "SUSPENDING" false false).2.2.2.2 rfl (by decide)
     (by decide) (by decide) (by decide) (by decide)⟩

/-- C5 counterexample: a `wait_until_ready` run that never observes the
ready marker and is never locked performs exactly 59 poll cycles (the
source initialises `cycle_count = 1` and loops while `cycle_count < 60`),
not the 60 cycles the claim states. -/
theorem C5_counterexample :
    (wait_until_ready (fun _ => false) (fun _ => false) false 0 2).2 = 59 ∧
    (59 : Nat) ≠ 60 := by
  refine ⟨?_, by decide⟩
  simp [wait_until_ready, wur_loop]

/-- C5 (amended): `wait_until_ready` polls at a fixed ten-second interval
for a bounded total wait of at most 59 poll cycles (590 seconds, just under
the ten-minute comment), terminating as soon as the ready marker is
observed or the lock flag is seen at a condition check; the wait is never
unbounded, and the maximal run performs exactly 59 cycles. -/
theorem C5_polling_bounded :
    (∀ (locked poll : Nat → Bool) (sc0 : Bool) (resets budget : Nat),
      (wait_until_ready locked poll sc0 resets budget).2 ≤ 59) ∧
    (∀ (locked poll : Nat → Bool) (i cycle : Nat),
      wur_loop locked poll i cycle true = (0, true)) ∧
    (∀ (locked poll : Nat → Bool) (i cycle : Nat) (complete : Bool),
      locked i = true → wur_loop locked poll i cycle complete = (0, complete)) ∧
    (wait_until_ready (fun _ => false) (fun _ => false) false 0 2).2 = 59 := by
  refine ⟨?_, wur_loop_of_complete, wur_loop_of_locked, ?_⟩
  · intro locked poll sc0 resets budget
    rw [wait_until_ready_snd]
    have h := wur_loop_iters_le locked poll 0 1 sc0
    omega
  · simp [wait_until_ready, wur_loop]

/-- C5 witness: the lock-observed part applied at a concrete check: a
locked condition check runs zero further cycles. -/
theorem C5_witness :
    wur_loop (fun _ => true) (fun _ => false) 0 1 false = (0, false) :=
  C5_polling_bounded.2.2.1 (fun _ => true) (fun _ => false) 0 1 false rfl

/-- C6: a locked resource never begins a non-destroy operation — `create`
refuses at its entry guard with a fatal error before consulting pricing or
running any command — and once the (monotone) lock flag is set by
observation `k`, an in-flight `wait_until_ready` executes no iteration at
or past check `k` and, if it was still waiting then, surfaces the fatal
locked-resource error. -/
theorem C6_locked_refusal_and_abandonment :
    (∀ (resolve : Nat → Pricing) (entryLocked : Nat → Bool)
        (lockedF pollF : Nat → Nat → Bool) (budget resets : Nat),
      entryLocked resets = true →
      create_full resolve entryLocked lockedF pollF budget resets =
        { outcome := .lockedError, recreates := 0, resolveCalls := 0,
          final := none }) ∧
    (∀ (locked poll : Nat → Bool) (sc0 : Bool) (resets budget k : Nat),
      (∀ a b, a ≤ b → locked a = true → locked b = true) →
      locked k = true →
      (wait_until_ready locked poll sc0 resets budget).2 ≤ k ∧
      (k ≤ (wait_until_ready locked poll sc0 resets budget).2 →
        (wait_until_ready locked poll sc0 resets budget).1 =
          WurOutcome.lockedError)) := by
  constructor
  · intro resolve entryLocked lockedF pollF budget resets h
    rw [create_full, if_pos h]
  · intro locked poll sc0 resets budget k hmono hk
    have hsnd := wait_until_ready_snd locked poll sc0 resets budget
    have hle := wur_loop_iters_le_of_locked_at locked poll hmono k hk 0 1 sc0
    constructor
    · omega
    · intro hk2
      have heq : (wur_loop locked poll 0 1 sc0).1 = k := by omega
      simp only [wait_until_ready]
      rw [heq, if_pos hk]

/-- C6 witness: a create on a locked resource refuses outright, and a wait
whose lock is set from the start aborts with the locked error after zero
cycles. -/
theorem C6_witness :
    create_full (fun _ => ⟨1, 4, "n1-standard-1", 5⟩) (fun _ => true)
      (fun _ _ => false) (fun _ _ => false) 2 0 =
      { outcome := .lockedError, recreates := 0, resolveCalls := 0,
        final := none } ∧
    (wait_until_ready (fun _ => true) (fun _ => false) false 0 2).1 =
      WurOutcome.lockedError :=
  ⟨C6_locked_refusal_and_abandonment.1 (fun _ => ⟨1, 4, "n1-standard-1", 5⟩)
      (fun _ => true) (fun _ _ => false) (fun _ _ => false) 2 0 rfl,
   (C6_locked_refusal_and_abandonment.2 (fun _ => true) (fun _ => false) false
      0 2 0 (fun _ _ _ h => h) rfl).2 (Nat.zero_le _)⟩

/-- C7: the boot-disk-size argument uses gigabyte units below the 10240
threshold and, at or above it, terabyte units rounded up (the computed
terabyte count covers the request and overshoots by less than one
terabyte); a request of 15000 produces "15TB"; and the generated create
command contains the `--boot-disk-size` flag followed by exactly this
argument. -/
theorem C7_boot_disk_units :
    (∀ d : Nat, d < 10240 → boot_disk_size_arg d = toString d ++ "GB") ∧
    (∀ d : Nat, 10240 ≤ d →
      boot_disk_size_arg d = toString ((d + 1023) / 1024) ++ "TB" ∧
      d ≤ 1024 * ((d + 1023) / 1024) ∧
      1024 * ((d + 1023) / 1024) < d + 1024) ∧
    boot_disk_size_arg 15000 = "15TB" ∧
    (∀ (name zone disk_image : String) (is_preemptible : Bool) (d : Nat)
        (ssd : Bool) (nloc : Nat) (sa : String) (ct : Bool) (cpus mem : Nat)
        (it : String),
      ∃ pre post,
        gcloud_create_cmd_args name zone disk_image is_preemptible d ssd nloc
            sa ct cpus mem it =
          pre ++ ["--boot-disk-size", boot_disk_size_arg d] ++ post) := by
  refine ⟨?_, ?_, rfl, ?_⟩
  · intro d hd
    rw [boot_disk_size_arg, if_neg (by omega)]
  · intro d hd
    exact ⟨by rw [boot_disk_size_arg, if_pos hd], by omega, by omega⟩
  · intro name zone disk_image ip d ssd nloc sa ct cpus mem it
    refine ⟨["gcloud compute instances create " ++ name, "--zone", zone] ++
        (if ip then ["--preemptible"] else []) ++ ["--image", disk_image],
      ["--boot-disk-type", if ssd then "pd-ssd" else "pd-standard"] ++
        List.replicate nloc "--local-ssd interface=scsi" ++
        ["--scopes", "cloud-platform", "--service-account", sa] ++
        (if ct then
          ["--custom-cpu", toString cpus, "--custom-memory",
           toString mem ++ "GB"]
        else ["--machine-type", it]) ++
        ["--metadata-from-file",
         "startup-script=System/Platform/Google/GoogleStartupScript.sh"], ?_⟩
    simp [gcloud_create_cmd_args]

/-- C7 witness: the unit rules applied at concrete sizes: 500 stays in
gigabytes, 15000 switches to rounded-up terabytes. -/
theorem C7_witness :
    boot_disk_size_arg 500 = "500GB" ∧
    boot_disk_size_arg 15000 = toString ((15000 + 1023) / 1024) ++ "TB" :=
  ⟨C7_boot_disk_units.1 500 (by decide),
   (C7_boot_disk_units.2.1 15000 (by decide)).1⟩

/-- C8: waiting on an already-complete executor returns the cached output
immediately: no command is executed, the executor state is unchanged, no
timestamps are touched and no retry is scheduled. -/
theorem C8_wait_idempotent_on_complete (locked : Bool) (proc_name : String)
    (proc : Process) (runResult : RunResult) (st : Status)
    (h : proc.complete = true) :
    wait_process locked proc_name proc runResult st =
    { outcome := .output proc.out proc.err, proc := proc, commandsRun := 0,
      startTimeSet := false, stopTimeSet := false, scheduledRetry := none } := by
  simp [wait_process, h]

/-- C8 witness: the idempotence applied to a concrete complete executor
with cached output. -/
theorem C8_witness :
    ({ command := "c", complete := true, failed := false, out := "o",
       err := "e", num_retries := 1 } : Process).complete = true ∧
    wait_process false "align-1"
      { command := "c", complete := true, failed := false, out := "o",
        err := "e", num_retries := 1 }
      { out := "x", err := "y", failed := true } Status.available =
    { outcome := .output "o" "e",
      proc := { command := "c", complete := true, failed := false, out := "o",
                err := "e", num_retries := 1 },
      commandsRun := 0, startTimeSet := false, stopTimeSet := false,
      scheduledRetry := none } :=
  ⟨rfl, C8_wait_idempotent_on_complete false "align-1" _ _ Status.available rfl⟩

/-- C9: `__sync_status` makes at most `default_num_cmd_retries + 1` poll
attempts; when it surfaces the error it has made exactly that many attempts
and every one of them raised; and when every attempt raises the error is
surfaced. -/
theorem C9_status_poll_retry_budget :
    (∀ (attempt : Nat → Option (Option Status)) (retries i : Nat),
      (sync_status attempt retries i).2 ≤ retries + 1) ∧
    (∀ (attempt : Nat → Option (Option Status)) (retries i : Nat),
      (sync_status attempt retries i).1 = none →
        (sync_status attempt retries i).2 = retries + 1 ∧
        ∀ j, j ≤ retries → attempt (i + j) = none) ∧
    (∀ (attempt : Nat → Option (Option Status)) (retries i : Nat),
      (∀ j, attempt j = none) → (sync_status attempt retries i).1 = none) :=
  ⟨fun attempt retries i => sync_status_attempts_le attempt retries i,
   fun attempt retries i h => sync_status_raise_exhausts attempt retries i h,
   fun attempt retries i h => sync_status_all_fail attempt h retries i⟩

/-- C9 witness: with every poll raising and a budget of 2 retries the error
surfaces after exactly 3 attempts. -/
theorem C9_witness :
    (sync_status (fun _ => none) 2 0).2 = 3 :=
  (C9_status_poll_retry_budget.2.1 (fun _ => none) 2 0 rfl).1

/-- C10 counterexample: a destroy command failure while the reconciled
status is Off is absorbed — `handle_failure` returns, `wait_process`
returns the captured output through the early-return recursion — but in
that very run the stop timestamp is NOT set (`set_stop_time` sits below the
failure branch and is never reached), contradicting the claim. -/
theorem C10_counterexample :
    wait_process false "destroy"
      { command := "yes 2>/dev/null | gcloud compute instances delete vm-a1b2",
        complete := false, failed := false, out := "", err := "",
        num_retries := 2 }
      { out := "", err := "delete failed", failed := true }
      Status.off =
    { outcome := .output "" "delete failed",
      proc := { command := "yes 2>/dev/null | gcloud compute instances delete vm-a1b2",
                complete := true, failed := true, out := "",
                err := "delete failed", num_retries := 2 },
      commandsRun := 1, startTimeSet := false, stopTimeSet := false,
      scheduledRetry := none } := rfl

/-- C10 (amended): a destroy failure while status is Off is silently
absorbed — no retry is scheduled, nothing is raised, the captured output is
returned as if the destroy succeeded — but the stop timestamp is not set on
this path. -/
theorem C10_destroy_failure_while_off_absorbed (locked : Bool) (proc : Process)
    (runResult : RunResult) (hc : proc.complete = false)
    (hf : runResult.failed = true) :
    wait_process locked "destroy" proc runResult Status.off =
    { outcome := .output runResult.out runResult.err,
      proc := { proc with
                complete := true,
                failed := true,
                out := runResult.out,
                err := runResult.err },
      commandsRun := 1, startTimeSet := false, stopTimeSet := false,
      scheduledRetry := none } := by
  simp [wait_process, handle_failure, hc, hf]

/-- C10 witness: the amended statement applied at a concrete failing destroy
(on a locked resource, which destroy is exempt from). -/
theorem C10_witness :
    ({ command := "d", complete := false, failed := false, out := "", err := "",
       num_retries := 1 } : Process).complete = false ∧
    ({ out := "so", err := "se", failed := true } : RunResult).failed = true ∧
    wait_process true "destroy"
      { command := "d", complete := false, failed := false, out := "", err := "",
        num_retries := 1 }
      { out := "so", err := "se", failed := true } Status.off =
    { outcome := .output "so" "se",
      proc := { command := "d", complete := true, failed := true, out := "so",
                err := "se", num_retries := 1 },
      commandsRun := 1, startTimeSet := false, stopTimeSet := false,
      scheduledRetry := none } :=
  ⟨rfl, rfl, C10_destroy_failure_while_off_absorbed true _ _ rfl rfl⟩

end CloudConductor
